import Mathlib

/-!
Verification of the dropid identifier-generation library
(source: src/index.ts) against its natural-language specification.

The TypeScript source is shallowly embedded: JS strings become `List Char`,
dynamically-typed arguments become `JsValue`, the mutable
process-wide configuration becomes explicit state passing, and the
cryptographic random source of the external nanoid dependency becomes an
oracle `rand : Nat → Nat` supplying one draw per suffix position.
-/

namespace DropId

/-- Model of a dynamically-typed JavaScript value, for arguments that the
source guards with truthiness and typeof checks. -/
inductive JsValue where
  | undefined
  | null
  | num (n : Int)
  | str (s : List Char)
deriving DecidableEq

/-- JavaScript falsiness on the modelled values: undefined, null, 0 and the
empty string are falsy. -/
def jsValueFalsy : JsValue → Bool
  | .undefined => true
  | .null => true
  | .num n => n == 0
  | .str s => s.isEmpty

/-- Model of the JavaScript check typeof v === string. -/
def jsValueIsString : JsValue → Bool
  | .str _ => true
  | _ => false

/-- Extract the character list of a string value; other values map to the
empty list (only used under a guard that ensures the value is a string). -/
def jsValueAsString : JsValue → List Char
  | .str s => s
  | _ => []

/-- The character class stripped by JavaScript String.prototype.trim:
ASCII whitespace, NBSP, the Unicode space separators, line and paragraph
separators, and the byte-order mark. -/
def isJsWhitespace (c : Char) : Bool :=
  decide (c.toNat = 9 ∨ c.toNat = 10 ∨ c.toNat = 11 ∨ c.toNat = 12 ∨
    c.toNat = 13 ∨ c.toNat = 32 ∨ c.toNat = 160 ∨ c.toNat = 0x1680 ∨
    (0x2000 ≤ c.toNat ∧ c.toNat ≤ 0x200a) ∨ c.toNat = 0x2028 ∨
    c.toNat = 0x2029 ∨ c.toNat = 0x202f ∨ c.toNat = 0x205f ∨
    c.toNat = 0x3000 ∨ c.toNat = 0xfeff)

/-- Model of String.prototype.trim: drop leading and trailing whitespace. -/
def jsTrim (s : List Char) : List Char :=
  ((s.dropWhile isJsWhitespace).reverse.dropWhile isJsWhitespace).reverse

/-- Model of String.prototype.toLowerCase, on its ASCII fragment (the only
fragment the source and specification exercise). -/
def jsToLower (s : List Char) : List Char :=
  s.map Char.toLower

/-- A fully populated configuration: the `Required<DropIdOptions>` record of
the source. `length` is an `Int` because JavaScript callers may pass
negative numbers (the test-suite passes -1). -/
structure Config where
  length : Int
  alphabet : List Char
  separator : List Char
deriving DecidableEq

/-- A partial configuration: the `DropIdOptions` interface of the source,
every field optional. -/
structure DropIdOptions where
  length : Option Int
  alphabet : Option (List Char)
  separator : Option (List Char)
deriving DecidableEq

/-- The empty `DropIdOptions`: no field supplied. -/
def noOptions : DropIdOptions := ⟨none, none, none⟩

/-- The `defaultOptions` constant of the source: length 12, lowercase
alphanumeric alphabet, underscore separator. -/
def defaultOptions : Config :=
  ⟨12, "0123456789abcdefghijklmnopqrstuvwxyz".toList, "_".toList⟩

/-- The object-spread merge `{ ...base, ...o }` of the source: every field
present in `o` overrides the corresponding field of `base`. -/
def mergeConfig (base : Config) (o : DropIdOptions) : Config :=
  ⟨o.length.getD base.length, o.alphabet.getD base.alphabet,
    o.separator.getD base.separator⟩

/-- The `configure` operation of the source:
`globalOptions = { ...globalOptions, ...options }`, modelled as a function
from the previous global state to the next. -/
def configure (g : Config) (options : DropIdOptions) : Config :=
  mergeConfig g options

/-- The `resetConfig` operation of the source:
`globalOptions = { ...defaultOptions }`. -/
def resetConfig (_g : Config) : Config :=
  defaultOptions

/-- The `getConfig` operation of the source: returns a copy of the global
state (copying is the identity in the value model). -/
def getConfig (g : Config) : Config :=
  g

/-- The two error kinds the source throws: `TypeError` (invalid-argument)
and `RangeError` (out-of-range), each carrying its message. -/
inductive DropError where
  | typeError (msg : String)
  | rangeError (msg : String)
deriving DecidableEq

/-- Modelled from the contract of the external nanoid dependency, which is
not part of this repository: `customAlphabet(alphabet, size)` yields a
generator producing `size` characters, each drawn from `alphabet` by the
cryptographic random source. The random source is the oracle `rand`; draw
`i` selects index `rand i % alphabet.length`. -/
def customAlphabetGen (alphabet : List Char) (size : Nat) (rand : Nat → Nat) :
    List Char :=
  (List.range size).map (fun i => alphabet.getD (rand i % alphabet.length) 'a')

/-- JavaScript truthiness of the optional string argument `prefix`:
truthy exactly when present and non-empty. -/
def jsOptTruthy : Option (List Char) → Bool
  | none => false
  | some s => !s.isEmpty

/-- The `dropid` function of the source, statement by statement. The global
mutable `globalOptions` is passed in explicitly; `rand` is the random
oracle. The source guard `typeof opts.separator !== 'string'` is vacuously
false in this typed model (the separator field is always a string), so it
is omitted. -/
def dropid (globalOptions : Config) (rand : Nat → Nat) (modelName : JsValue)
    (pfx : Option (List Char)) (options : DropIdOptions) :
    Except DropError (List Char) :=
  if jsValueFalsy modelName || !jsValueIsString modelName then
    .error (.typeError "modelName must be a non-empty string")
  else
    let opts : Config := mergeConfig globalOptions options
    if opts.length < 1 then
      .error (.rangeError "length must be at least 1")
    else if opts.alphabet.isEmpty || opts.alphabet.length < 2 then
      .error (.typeError "alphabet must contain at least 2 characters")
    else
      let id := customAlphabetGen opts.alphabet opts.length.toNat rand
      let normalizedModelName := jsTrim (jsToLower (jsValueAsString modelName))
      let parts := if jsOptTruthy pfx then
          [pfx.getD [], normalizedModelName, id]
        else
          [normalizedModelName, id]
      .ok (List.intercalate opts.separator parts)

/-- Stateful view of `dropid`: the source body of `dropid` contains no
assignment to `globalOptions`, so the post-state component is the
unchanged pre-state. -/
def dropidSt (g : Config) (rand : Nat → Nat) (modelName : JsValue)
    (pfx : Option (List Char)) (options : DropIdOptions) :
    Config × Except DropError (List Char) :=
  (g, dropid g rand modelName pfx options)

/-- The `createPrefixedId` factory of the source: validates the prefix, then
returns a closure delegating to `dropid`. The closure reads the global
state and random oracle at call time, so the returned function takes them
as arguments. -/
def createPrefixedId (pfx : JsValue) (options : DropIdOptions) :
    Except DropError
      (Config → (Nat → Nat) → JsValue → Except DropError (List Char)) :=
  if jsValueFalsy pfx || !jsValueIsString pfx then
    .error (.typeError "prefix must be a non-empty string")
  else
    .ok (fun globalOptions rand modelName =>
      dropid globalOptions rand modelName (some (jsValueAsString pfx)) options)

instance {ε α : Type} [DecidableEq ε] [DecidableEq α] :
    DecidableEq (Except ε α) := fun x y =>
  match x, y with
  | .ok a, .ok b =>
      if h : a = b then .isTrue (by rw [h])
      else .isFalse (by intro hc; cases hc; exact h rfl)
  | .ok _, .error _ => .isFalse (by intro hc; cases hc)
  | .error _, .ok _ => .isFalse (by intro hc; cases hc)
  | .error e, .error f =>
      if h : e = f then .isTrue (by rw [h])
      else .isFalse (by intro hc; cases hc; exact h rfl)

/-- An operation on the process-wide configuration state. -/
inductive ConfigOp where
  | update (o : DropIdOptions)
  | reset

/-- Apply one configuration operation to the global state. -/
def applyConfigOp (g : Config) : ConfigOp → Config
  | .update o => configure g o
  | .reset => resetConfig g

/-- Run a sequence of configuration operations from the initial state, which
the source initializes to a copy of `defaultOptions`. -/
def runConfigOps (ops : List ConfigOp) : Config :=
  ops.foldl applyConfigOp defaultOptions

/-- The configuration invariant claimed by the specification. -/
def configInvariant (g : Config) : Prop :=
  1 ≤ g.length ∧ 2 ≤ g.alphabet.length

/-! ### Helper lemmas -/

theorem toNat_ofNat_valid (n : Nat) (h : n.isValidChar) :
    (Char.ofNat n).toNat = n := by
  rw [Char.ofNat, dif_pos h]
  rfl

theorem isJsWhitespace_toLower (c : Char) :
    isJsWhitespace (Char.toLower c) = isJsWhitespace c := by
  simp only [Char.toLower]
  split
  case isTrue h =>
    have hv : (c.toNat + 32).isValidChar := Or.inl (by omega)
    simp only [isJsWhitespace, toNat_ofNat_valid _ hv, decide_eq_decide]
    omega
  case isFalse h => rfl

theorem jsTrim_jsToLower (s : List Char) :
    jsTrim (jsToLower s) = jsToLower (jsTrim s) := by
  have hpred : (isJsWhitespace ∘ Char.toLower) = isJsWhitespace :=
    funext isJsWhitespace_toLower
  simp only [jsTrim, jsToLower, List.dropWhile_map, hpred, ← List.map_reverse]

theorem customAlphabetGen_length (alphabet : List Char) (size : Nat)
    (rand : Nat → Nat) : (customAlphabetGen alphabet size rand).length = size := by
  simp [customAlphabetGen]

theorem mem_customAlphabetGen (alphabet : List Char) (size : Nat)
    (rand : Nat → Nat) (halph : 0 < alphabet.length) :
    ∀ c ∈ customAlphabetGen alphabet size rand, c ∈ alphabet := by
  intro c hc
  simp only [customAlphabetGen, List.mem_map] at hc
  obtain ⟨i, _, hi⟩ := hc
  have hlt : rand i % alphabet.length < alphabet.length := Nat.mod_lt _ halph
  rw [List.getD_eq_getElem?_getD, List.getElem?_eq_getElem hlt] at hi
  subst hi
  exact List.getElem_mem hlt

theorem mergeConfig_noOptions (g : Config) : mergeConfig g noOptions = g :=
  rfl

/-- Central format lemma: on a valid model name and a valid effective
configuration, `dropid` succeeds and its output is the optional verbatim
prefix, the normalized model name, and the random suffix, joined by the
effective separator. -/
theorem dropid_ok (g : Config) (o : DropIdOptions) (rand : Nat → Nat)
    (m : List Char) (pfx : Option (List Char))
    (hm : m ≠ [])
    (hlen : 1 ≤ (mergeConfig g o).length)
    (halph : 2 ≤ (mergeConfig g o).alphabet.length) :
    dropid g rand (.str m) pfx o =
      .ok ((if jsOptTruthy pfx then
              pfx.getD [] ++ (mergeConfig g o).separator
            else []) ++
           jsToLower (jsTrim m) ++ (mergeConfig g o).separator ++
           customAlphabetGen (mergeConfig g o).alphabet
             (mergeConfig g o).length.toNat rand) := by
  have hfalsy : jsValueFalsy (.str m) = false := by
    simp [jsValueFalsy, hm]
  have hne : ¬ (mergeConfig g o).length < 1 := not_lt.mpr hlen
  have hae : (mergeConfig g o).alphabet.isEmpty = false := by
    rcases h : (mergeConfig g o).alphabet with _ | ⟨a, l⟩
    · rw [h] at halph; simp at halph
    · rfl
  have han : ¬ (mergeConfig g o).alphabet.length < 2 := not_lt.mpr halph
  simp only [dropid, hfalsy, jsValueIsString, Bool.not_true, Bool.or_false,
    Bool.false_or, if_neg hne, hae, if_neg han, Bool.or_self, if_false,
    jsValueAsString, jsTrim_jsToLower]
  rcases pfx with _ | p
  · simp [jsOptTruthy, List.intercalate, List.append_assoc]
    exact halph
  · rcases hp : p.isEmpty with _ | _
    · simp [jsOptTruthy, hp, List.intercalate, List.append_assoc]
      exact halph
    · simp [jsOptTruthy, hp, List.intercalate, List.append_assoc]
      exact halph

/-! ### Claim theorems -/

/-- Claim C1: for every model name that validates and every resolved
effective configuration that validates, the string returned by dropid
matches the pattern [prefix + separator +] normalizedModelName +
separator + suffix, where the suffix has exactly length characters, every
suffix character is a member of alphabet, normalizedModelName equals the
model name with surrounding whitespace trimmed and lower-cased, and the
prefix segment is present exactly when a non-empty prefix was supplied. -/
theorem claim_C1_format (g : Config) (o : DropIdOptions) (rand : Nat → Nat)
    (m : List Char) (pfx : Option (List Char))
    (hm : m ≠ [])
    (hlen : 1 ≤ (mergeConfig g o).length)
    (halph : 2 ≤ (mergeConfig g o).alphabet.length) :
    ∃ suffix : List Char,
      dropid g rand (.str m) pfx o =
        .ok ((if jsOptTruthy pfx then
                pfx.getD [] ++ (mergeConfig g o).separator
              else []) ++
             jsToLower (jsTrim m) ++ (mergeConfig g o).separator ++ suffix) ∧
      (suffix.length : Int) = (mergeConfig g o).length ∧
      ∀ c ∈ suffix, c ∈ (mergeConfig g o).alphabet := by
  refine ⟨customAlphabetGen (mergeConfig g o).alphabet
      (mergeConfig g o).length.toNat rand,
    dropid_ok g o rand m pfx hm hlen halph, ?_, ?_⟩
  · rw [customAlphabetGen_length]
    exact Int.toNat_of_nonneg (le_trans (by norm_num) hlen)
  · exact mem_customAlphabetGen _ _ _ (by omega)

/-- Witness for claim C1 at a concrete input. -/
theorem claim_C1_format_witness :
    ∃ suffix : List Char,
      dropid defaultOptions (fun _ => 3) (.str "  User ".toList)
        (some "ACME ".toList) noOptions =
        .ok ((if jsOptTruthy (some "ACME ".toList) then
                (some "ACME ".toList).getD [] ++
                  (mergeConfig defaultOptions noOptions).separator
              else []) ++
             jsToLower (jsTrim "  User ".toList) ++
             (mergeConfig defaultOptions noOptions).separator ++ suffix) ∧
      (suffix.length : Int) = (mergeConfig defaultOptions noOptions).length ∧
      ∀ c ∈ suffix, c ∈ (mergeConfig defaultOptions noOptions).alphabet :=
  claim_C1_format defaultOptions noOptions (fun _ => 3) "  User ".toList
    (some "ACME ".toList) (by decide) (by decide) (by decide)

/-- Counterexample to claim C2: a model name of three spaces is empty after
trimming, yet dropid returns an identifier (with an empty model-name
segment) rather than signaling an invalid-argument error, because the
source checks falsiness of the raw model name before trimming. -/
theorem claim_C2_counterexample :
    dropid defaultOptions (fun _ => 0) (.str "   ".toList) none noOptions =
      .ok "_000000000000".toList := by
  decide

/-- Claim C2 (amended): dropid signals an invalid-argument error exactly
when the model name is absent, null, not a string, or the empty string; a
string that is empty only after whitespace trimming is accepted and
produces an identifier. -/
theorem claim_C2_amended (g : Config) (rand : Nat → Nat) (m : JsValue)
    (hlen : 1 ≤ g.length) (halph : 2 ≤ g.alphabet.length) :
    (∃ e, dropid g rand m none noOptions = .error e) ↔
      ((¬ ∃ s, m = .str s) ∨ m = .str []) := by
  rcases m with _ | _ | n | s
  · exact ⟨fun _ => Or.inl (by rintro ⟨s, hs⟩; cases hs),
      fun _ => ⟨.typeError "modelName must be a non-empty string", rfl⟩⟩
  · exact ⟨fun _ => Or.inl (by rintro ⟨s, hs⟩; cases hs),
      fun _ => ⟨.typeError "modelName must be a non-empty string", rfl⟩⟩
  · refine ⟨fun _ => Or.inl (by rintro ⟨s, hs⟩; cases hs), fun _ => ?_⟩
    refine ⟨.typeError "modelName must be a non-empty string", ?_⟩
    simp [dropid, jsValueIsString]
  · rcases s with _ | ⟨c, t⟩
    · exact ⟨fun _ => Or.inr rfl,
        fun _ => ⟨.typeError "modelName must be a non-empty string", rfl⟩⟩
    · constructor
      · rintro ⟨e, he⟩
        have hok := dropid_ok g noOptions rand (c :: t) none (by simp)
          (by rw [mergeConfig_noOptions]; exact hlen)
          (by rw [mergeConfig_noOptions]; exact halph)
        rw [hok] at he
        cases he
      · rintro (h | h)
        · exact absurd ⟨c :: t, rfl⟩ h
        · simp at h

/-- Witness for the amended claim C2 at the whitespace-only model name. -/
theorem claim_C2_amended_witness :
    ¬ ∃ e, dropid defaultOptions (fun _ => 0) (.str "   ".toList) none
      noOptions = .error e := by
  have h := claim_C2_amended defaultOptions (fun _ => 0) (.str "   ".toList)
    (by decide) (by decide)
  intro he
  rcases h.mp he with h1 | h2
  · exact h1 ⟨"   ".toList, rfl⟩
  · simp at h2

/-- Counterexample to claim C3: configure performs no validation, so a
single global update with length 0 reaches a process-wide configuration
state violating the claimed invariant. -/
theorem claim_C3_counterexample :
    ¬ configInvariant (runConfigOps [ConfigOp.update ⟨some 0, none, none⟩]) :=
  fun h => absurd h.1 (by decide)

/-- A partial options record whose supplied fields respect the
configuration invariant field-wise. -/
def validOptionsUpdate (o : DropIdOptions) : Prop :=
  (∀ n, o.length = some n → 1 ≤ n) ∧
  (∀ a, o.alphabet = some a → 2 ≤ a.length)

/-- A configuration operation that preserves the invariant field-wise:
reset always does; an update does when its supplied fields do. -/
def validConfigOp : ConfigOp → Prop
  | .update o => validOptionsUpdate o
  | .reset => True

theorem configInvariant_applyConfigOp (g : Config) (op : ConfigOp)
    (hg : configInvariant g) (hop : validConfigOp op) :
    configInvariant (applyConfigOp g op) := by
  cases op with
  | reset =>
    show configInvariant defaultOptions
    exact ⟨by decide, by decide⟩
  | update o =>
    rcases hop with ⟨hl, ha⟩
    constructor
    · rcases ho : o.length with _ | n
      · simpa [applyConfigOp, configure, mergeConfig, ho] using hg.1
      · simpa [applyConfigOp, configure, mergeConfig, ho] using hl n ho
    · rcases ho : o.alphabet with _ | a
      · simpa [applyConfigOp, configure, mergeConfig, ho] using hg.2
      · simpa [applyConfigOp, configure, mergeConfig, ho] using ha a ho

theorem foldl_configInvariant (ops : List ConfigOp) :
    ∀ g, configInvariant g → (∀ op ∈ ops, validConfigOp op) →
      configInvariant (ops.foldl applyConfigOp g) := by
  induction ops with
  | nil => exact fun g hg _ => hg
  | cons op ops ih =>
    intro g hg hops
    exact ih _ (configInvariant_applyConfigOp g op hg (hops op (by simp)))
      (fun x hx => hops x (by simp [hx]))

/-- Claim C3 (amended): every process-wide configuration state reachable
from the default by configure and reset operations whose supplied fields
respect the invariant field-wise (length at least 1 when supplied,
alphabet of at least 2 characters when supplied) satisfies the invariant;
configure itself performs no validation, so the restriction on supplied
fields is necessary. -/
theorem claim_C3_amended (ops : List ConfigOp)
    (h : ∀ op ∈ ops, validConfigOp op) :
    configInvariant (runConfigOps ops) :=
  foldl_configInvariant ops defaultOptions ⟨by decide, by decide⟩ h

/-- Witness for the amended claim C3 on a concrete operation sequence. -/
theorem claim_C3_amended_witness :
    configInvariant (runConfigOps
      [ConfigOp.update ⟨some 16, none, none⟩, ConfigOp.reset]) :=
  claim_C3_amended _ (by
    intro op hop
    simp only [List.mem_cons, List.not_mem_nil, or_false] at hop
    rcases hop with rfl | rfl
    · exact ⟨fun n hn => by cases hn; decide, fun a ha => by cases ha⟩
    · trivial)

/-- Claim C4: configuration resolution is strictly layered per field —
every field present in the call options overrides the corresponding
process-wide field for that single call only (the global state is not
mutated), every absent field falls through to the process-wide value; with
global length 16, a call supplying length 8 yields an 8-character suffix
and a call supplying no options yields a 16-character suffix. -/
theorem claim_C4_layering (g : Config) (o : DropIdOptions)
    (rand : Nat → Nat) :
    ((∀ n, o.length = some n → (mergeConfig g o).length = n) ∧
     (o.length = none → (mergeConfig g o).length = g.length) ∧
     (∀ a, o.alphabet = some a → (mergeConfig g o).alphabet = a) ∧
     (o.alphabet = none → (mergeConfig g o).alphabet = g.alphabet) ∧
     (∀ s, o.separator = some s → (mergeConfig g o).separator = s) ∧
     (o.separator = none → (mergeConfig g o).separator = g.separator)) ∧
    (∀ m pfx, (dropidSt g rand m pfx o).1 = g) ∧
    (∃ suffix, dropid (configure defaultOptions ⟨some 16, none, none⟩) rand
        (.str "user".toList) none ⟨some 8, none, none⟩ =
        .ok ("user_".toList ++ suffix) ∧ suffix.length = 8) ∧
    (∃ suffix, dropid (configure defaultOptions ⟨some 16, none, none⟩) rand
        (.str "user".toList) none noOptions =
        .ok ("user_".toList ++ suffix) ∧ suffix.length = 16) := by
  refine ⟨⟨fun n hn => ?_, fun hn => ?_, fun a ha => ?_, fun ha => ?_,
      fun s hs => ?_, fun hs => ?_⟩, fun m pfx => rfl, ?_, ?_⟩
  · simp [mergeConfig, hn]
  · simp [mergeConfig, hn]
  · simp [mergeConfig, ha]
  · simp [mergeConfig, ha]
  · simp [mergeConfig, hs]
  · simp [mergeConfig, hs]
  · refine ⟨customAlphabetGen defaultOptions.alphabet 8 rand, ?_, ?_⟩
    · exact dropid_ok (configure defaultOptions ⟨some 16, none, none⟩)
        ⟨some 8, none, none⟩ rand "user".toList none (by decide) (by decide)
        (by decide)
    · exact customAlphabetGen_length _ _ _
  · refine ⟨customAlphabetGen defaultOptions.alphabet 16 rand, ?_, ?_⟩
    · exact dropid_ok (configure defaultOptions ⟨some 16, none, none⟩)
        noOptions rand "user".toList none (by decide) (by decide) (by decide)
    · exact customAlphabetGen_length _ _ _

/-- Witness for claim C4 at a concrete input. -/
theorem claim_C4_layering_witness :
    (mergeConfig (configure defaultOptions ⟨some 16, none, none⟩)
      ⟨some 8, none, none⟩).length = 8 :=
  (claim_C4_layering (configure defaultOptions ⟨some 16, none, none⟩)
    ⟨some 8, none, none⟩ (fun _ => 0)).1.1 8 rfl

/-- Claim C5: a caller-supplied length of 0 is treated as explicitly
present, so any such call (and more generally any call whose effective
length is below 1) signals the out-of-range error, regardless of the
global configuration. -/
theorem claim_C5_length_zero (g : Config) (o : DropIdOptions)
    (rand : Nat → Nat) (m : List Char) (pfx : Option (List Char))
    (hm : m ≠ [])
    (h : o.length = some 0 ∨ (mergeConfig g o).length < 1) :
    dropid g rand (.str m) pfx o =
      .error (.rangeError "length must be at least 1") := by
  have hlt : (mergeConfig g o).length < 1 := by
    rcases h with h | h
    · simp [mergeConfig, h]
    · exact h
  have hfalsy : jsValueFalsy (.str m) = false := by
    simp [jsValueFalsy, hm]
  simp [dropid, hfalsy, jsValueIsString, hlt]

/-- Witness for claim C5: length 0 overrides a global length of 16. -/
theorem claim_C5_length_zero_witness :
    dropid (configure defaultOptions ⟨some 16, none, none⟩) (fun _ => 0)
      (.str "user".toList) none ⟨some 0, none, none⟩ =
      .error (.rangeError "length must be at least 1") :=
  claim_C5_length_zero _ _ _ _ _ (by decide) (Or.inl rfl)

/-- Claim C6: dropid never mutates the process-wide configuration (its
stateful view returns the pre-state unchanged), and an erroring call is
independent of the random oracle: validation fails before any randomness
is drawn, so the same error is produced under every oracle and no partial
identifier is returned. -/
theorem claim_C6_frame (g : Config) (rand rand' : Nat → Nat) (m : JsValue)
    (pfx : Option (List Char)) (o : DropIdOptions) :
    (dropidSt g rand m pfx o).1 = g ∧
    (∀ e, dropid g rand m pfx o = .error e →
      dropid g rand' m pfx o = .error e) := by
  refine ⟨rfl, ?_⟩
  intro e he
  simp only [dropid] at he ⊢
  split at he
  · rename_i h1
    rw [if_pos h1]
    exact he
  · rename_i h1
    rw [if_neg h1]
    split at he
    · rename_i h2
      rw [if_pos h2]
      exact he
    · rename_i h2
      rw [if_neg h2]
      split at he
      · rename_i h3
        rw [if_pos h3]
        exact he
      · cases he

/-- Witness for claim C6: an invalid model name produces the same error
under a different random oracle. -/
theorem claim_C6_frame_witness :
    dropid defaultOptions (fun _ => 1) (.str []) none noOptions =
      .error (.typeError "modelName must be a non-empty string") :=
  (claim_C6_frame defaultOptions (fun _ => 0) (fun _ => 1) (.str []) none
    noOptions).2 _ rfl

/-- Claim C7: configure merges the supplied partial options into the
process-wide configuration field by field — every supplied field takes the
supplied value and every omitted field leaves the corresponding
process-wide field unchanged. -/
theorem claim_C7_merge (g : Config) (o : DropIdOptions) :
    (∀ n, o.length = some n → (configure g o).length = n) ∧
    (o.length = none → (configure g o).length = g.length) ∧
    (∀ a, o.alphabet = some a → (configure g o).alphabet = a) ∧
    (o.alphabet = none → (configure g o).alphabet = g.alphabet) ∧
    (∀ s, o.separator = some s → (configure g o).separator = s) ∧
    (o.separator = none → (configure g o).separator = g.separator) := by
  refine ⟨fun n hn => ?_, fun hn => ?_, fun a ha => ?_, fun ha => ?_,
    fun s hs => ?_, fun hs => ?_⟩ <;> simp_all [configure, mergeConfig]

/-- Witness for claim C7: updating only the length keeps the separator. -/
theorem claim_C7_merge_witness :
    (configure defaultOptions ⟨some 16, none, none⟩).length = 16 ∧
    (configure defaultOptions ⟨some 16, none, none⟩).separator =
      defaultOptions.separator :=
  ⟨(claim_C7_merge defaultOptions ⟨some 16, none, none⟩).1 16 rfl,
   (claim_C7_merge defaultOptions ⟨some 16, none, none⟩).2.2.2.2.2 rfl⟩

/-- Claim C8: createPrefixedId signals an invalid-argument error at
creation time exactly when the prefix is absent, null, not a string, or
empty; otherwise it returns a function that on every model name, global
state and random oracle behaves identically to dropid with the captured
prefix and options. -/
theorem claim_C8_factory (pfx : JsValue) (o : DropIdOptions) :
    (((¬ ∃ s, pfx = .str s) ∨ pfx = .str []) →
      createPrefixedId pfx o =
        .error (.typeError "prefix must be a non-empty string")) ∧
    (∀ s, pfx = .str s → s ≠ [] →
      ∃ f, createPrefixedId pfx o = .ok f ∧
        ∀ g rand m, f g rand m = dropid g rand m (some s) o) := by
  constructor
  · rintro (h | rfl)
    · rcases pfx with _ | _ | n | s
      · rfl
      · rfl
      · simp [createPrefixedId, jsValueIsString]
      · exact absurd ⟨s, rfl⟩ h
    · rfl
  · intro s hps hs
    subst hps
    rcases s with _ | ⟨c, t⟩
    · exact absurd rfl hs
    · exact ⟨_, rfl, fun g rand m => rfl⟩

/-- Witness for claim C8 at a concrete non-empty prefix. -/
theorem claim_C8_factory_witness :
    ∃ f, createPrefixedId (.str "acme".toList) noOptions = .ok f ∧
      ∀ g rand m, f g rand m =
        dropid g rand m (some "acme".toList) noOptions :=
  (claim_C8_factory (.str "acme".toList) noOptions).2 "acme".toList rfl
    (by decide)

/-- Claim C9: the prefix is incorporated verbatim — for every non-empty
prefix the identifier begins with exactly the supplied prefix followed by
the separator, with no trimming and no lower-casing; concretely, a prefix
of ACME followed by a space yields an identifier beginning ACME space
underscore, unlike the model-name segment which is normalized. -/
theorem claim_C9_verbatim (g : Config) (o : DropIdOptions)
    (rand : Nat → Nat) (m p : List Char) (hm : m ≠ []) (hp : p ≠ [])
    (hlen : 1 ≤ (mergeConfig g o).length)
    (halph : 2 ≤ (mergeConfig g o).alphabet.length) :
    (∃ rest, dropid g rand (.str m) (some p) o =
        .ok (p ++ (mergeConfig g o).separator ++ rest)) ∧
    (∃ rest, dropid defaultOptions rand (.str "user".toList)
        (some "ACME ".toList) noOptions =
        .ok ("ACME _".toList ++ rest)) := by
  constructor
  · rcases p with _ | ⟨c, t⟩
    · exact absurd rfl hp
    · refine ⟨jsToLower (jsTrim m) ++ (mergeConfig g o).separator ++
        customAlphabetGen (mergeConfig g o).alphabet
          (mergeConfig g o).length.toNat rand, ?_⟩
      have h := dropid_ok g o rand m (some (c :: t)) hm hlen halph
      simpa [jsOptTruthy, List.append_assoc] using h
  · refine ⟨"user_".toList ++
      customAlphabetGen defaultOptions.alphabet 12 rand, ?_⟩
    exact dropid_ok defaultOptions noOptions rand "user".toList
      (some "ACME ".toList) (by decide) (by decide) (by decide)

/-- Witness for claim C9 at a concrete input. -/
theorem claim_C9_verbatim_witness :
    ∃ rest, dropid defaultOptions (fun _ => 0) (.str "user".toList)
      (some "ACME ".toList) noOptions =
      .ok ("ACME _".toList ++ rest) :=
  (claim_C9_verbatim defaultOptions noOptions (fun _ => 0) "user".toList
    "ACME ".toList (by decide) (by decide) (by decide) (by decide)).2

/-- Claim C10: the function returned by createPrefixedId resolves the
process-wide configuration at each invocation, not at creation time: the
same returned function produces a 16-character suffix when invoked under a
global state configured with length 16 and a 12-character suffix when
invoked under the default global state, and in general delegates to dropid
on whatever global state is current at call time. -/
theorem claim_C10_late_binding (rand : Nat → Nat) :
    ∃ f, createPrefixedId (.str "acme".toList) noOptions = .ok f ∧
      (∀ g m, f g rand m = dropid g rand m (some "acme".toList) noOptions) ∧
      (∃ suffix, f (configure defaultOptions ⟨some 16, none, none⟩) rand
          (.str "user".toList) = .ok ("acme_user_".toList ++ suffix) ∧
          suffix.length = 16) ∧
      (∃ suffix, f defaultOptions rand (.str "user".toList) =
          .ok ("acme_user_".toList ++ suffix) ∧ suffix.length = 12) := by
  refine ⟨_, rfl, fun g m => rfl, ?_, ?_⟩
  · refine ⟨customAlphabetGen defaultOptions.alphabet 16 rand, ?_,
      customAlphabetGen_length _ _ _⟩
    exact dropid_ok (configure defaultOptions ⟨some 16, none, none⟩)
      noOptions rand "user".toList (some "acme".toList) (by decide)
      (by decide) (by decide)
  · refine ⟨customAlphabetGen defaultOptions.alphabet 12 rand, ?_,
      customAlphabetGen_length _ _ _⟩
    exact dropid_ok defaultOptions noOptions rand "user".toList
      (some "acme".toList) (by decide) (by decide) (by decide)

end DropId
